import Mathlib

/-!
Verification of the snake step function `move_snake` from
`src/public/snake_Logic.py`.

The Python function takes the snake body (a list of `[x, y]` pairs,
head first), a direction string, the food position and a grid size,
and returns `None` on a wall or self collision, or a dictionary
`{"snake": newBody, "ate": flag}` on a successful move.
-/

/-- A grid cell: the pair `[x, y]` of integers used by the Python code. -/
abbrev Position := Int × Int

/-- Result of one step. `collision` models the `return None` branches of
`move_snake`; `moved body ate` models `return {"snake": body, "ate": ate}`. -/
inductive StepResult where
  | collision : StepResult
  | moved : List Position → Bool → StepResult
deriving DecidableEq, Repr

/-- The direction offset applied to the head (lines 7–10 of
`snake_Logic.py`): the direction string is compared against `"UP"`,
`"DOWN"`, `"LEFT"`, `"RIGHT"` in turn; an unrecognized string leaves the
head coordinates unchanged. -/
def new_head_of (head : Position) (direction : String) : Position :=
  if direction = "UP" then (head.1, head.2 - 1)
  else if direction = "DOWN" then (head.1, head.2 + 1)
  else if direction = "LEFT" then (head.1 - 1, head.2)
  else if direction = "RIGHT" then (head.1 + 1, head.2)
  else (head.1, head.2)

/-- Embedding of `move_snake` from `src/public/snake_Logic.py`.

`snake_list[0]` on an empty list raises `IndexError` in Python; the
embedding returns `none` there, and `some r` wherever the Python function
returns a value `r`.  The wall check, the self-collision check against the
pre-move body, the prepend `[new_head] + snake_list`, the food check and
the tail `pop` are translated line by line. -/
def move_snake (snake : List Position) (direction : String) (food : Position)
    (grid_size : Int := 20) : Option StepResult :=
  match snake with
  | [] => none
  | head :: rest =>
    let new_head := new_head_of head direction
    if new_head.1 < 0 ∨ new_head.1 ≥ grid_size ∨ new_head.2 < 0 ∨ new_head.2 ≥ grid_size then
      some StepResult.collision
    else if new_head ∈ head :: rest then
      some StepResult.collision
    else
      let new_snake := new_head :: head :: rest
      if new_head = food then
        some (StepResult.moved new_snake true)
      else
        some (StepResult.moved new_snake.dropLast false)

/-- The wall-collision test of line 15 of `snake_Logic.py`. -/
def out_of_bounds (p : Position) (grid_size : Int) : Prop :=
  p.1 < 0 ∨ p.1 ≥ grid_size ∨ p.2 < 0 ∨ p.2 ≥ grid_size

instance (p : Position) (grid_size : Int) : Decidable (out_of_bounds p grid_size) :=
  inferInstanceAs (Decidable (p.1 < 0 ∨ p.1 ≥ grid_size ∨ p.2 < 0 ∨ p.2 ≥ grid_size))

/-- Both coordinates of `p` lie inside `[0, grid_size)`. -/
def in_bounds (p : Position) (grid_size : Int) : Prop :=
  0 ≤ p.1 ∧ p.1 < grid_size ∧ 0 ≤ p.2 ∧ p.2 < grid_size

instance (p : Position) (grid_size : Int) : Decidable (in_bounds p grid_size) :=
  inferInstanceAs (Decidable (0 ≤ p.1 ∧ p.1 < grid_size ∧ 0 ≤ p.2 ∧ p.2 < grid_size))

/-- `q` is exactly one unit step from `p` in the given direction. -/
def unit_step_from (p q : Position) (direction : String) : Prop :=
  (direction = "UP" ∧ q = (p.1, p.2 - 1)) ∨
  (direction = "DOWN" ∧ q = (p.1, p.2 + 1)) ∨
  (direction = "LEFT" ∧ q = (p.1 - 1, p.2)) ∨
  (direction = "RIGHT" ∧ q = (p.1 + 1, p.2))

instance (p q : Position) (direction : String) : Decidable (unit_step_from p q direction) :=
  inferInstanceAs (Decidable
    ((direction = "UP" ∧ q = (p.1, p.2 - 1)) ∨
     (direction = "DOWN" ∧ q = (p.1, p.2 + 1)) ∨
     (direction = "LEFT" ∧ q = (p.1 - 1, p.2)) ∨
     (direction = "RIGHT" ∧ q = (p.1 + 1, p.2))))

/-- Two grid cells differ by exactly one unit step (grid adjacency). -/
def unit_adjacent (p q : Position) : Prop :=
  (p.1 = q.1 ∧ (p.2 = q.2 + 1 ∨ q.2 = p.2 + 1)) ∨
  (p.2 = q.2 ∧ (p.1 = q.1 + 1 ∨ q.1 = p.1 + 1))

instance (p q : Position) : Decidable (unit_adjacent p q) :=
  inferInstanceAs (Decidable
    ((p.1 = q.1 ∧ (p.2 = q.2 + 1 ∨ q.2 = p.2 + 1)) ∨
     (p.2 = q.2 ∧ (p.1 = q.1 + 1 ∨ q.1 = p.1 + 1))))

/-- `in_bounds` is the negation of the code's wall test. -/
lemma not_out_of_bounds_iff (p : Position) (grid_size : Int) :
    ¬ out_of_bounds p grid_size ↔ in_bounds p grid_size := by
  unfold out_of_bounds in_bounds; omega

/-- Unfolding equation for `move_snake` on a non-empty body. -/
lemma move_snake_cons (head : Position) (rest : List Position) (direction : String)
    (food : Position) (grid_size : Int) :
    move_snake (head :: rest) direction food grid_size =
      (if out_of_bounds (new_head_of head direction) grid_size then some StepResult.collision
       else if new_head_of head direction ∈ head :: rest then some StepResult.collision
       else if new_head_of head direction = food then
         some (StepResult.moved (new_head_of head direction :: head :: rest) true)
       else
         some (StepResult.moved ((new_head_of head direction :: head :: rest).dropLast) false)) :=
  rfl

/-- Helper: the wall test firing yields the collision result. -/
lemma collision_of_out (head : Position) (rest : List Position) (direction : String)
    (food : Position) (grid_size : Int)
    (h : out_of_bounds (new_head_of head direction) grid_size) :
    move_snake (head :: rest) direction food grid_size = some StepResult.collision := by
  rw [move_snake_cons, if_pos h]

/-- Helper: a new head lying on the pre-move body yields the collision result. -/
lemma collision_of_mem (head : Position) (rest : List Position) (direction : String)
    (food : Position) (grid_size : Int)
    (h : new_head_of head direction ∈ head :: rest) :
    move_snake (head :: rest) direction food grid_size = some StepResult.collision := by
  rw [move_snake_cons]
  by_cases hb : out_of_bounds (new_head_of head direction) grid_size
  · rw [if_pos hb]
  · rw [if_neg hb, if_pos h]

/-- Helper: the successful non-eating branch, fully evaluated. -/
lemma moved_of_free (head : Position) (rest : List Position) (direction : String)
    (food : Position) (grid_size : Int)
    (hin : in_bounds (new_head_of head direction) grid_size)
    (hmem : new_head_of head direction ∉ head :: rest)
    (hfood : new_head_of head direction ≠ food) :
    move_snake (head :: rest) direction food grid_size =
      some (StepResult.moved (new_head_of head direction :: (head :: rest).dropLast) false) := by
  rw [move_snake_cons, if_neg ((not_out_of_bounds_iff _ _).mpr hin), if_neg hmem, if_neg hfood,
    List.dropLast_cons₂]

/-- Helper: the successful eating branch, fully evaluated. -/
lemma moved_of_food (head : Position) (rest : List Position) (direction : String)
    (food : Position) (grid_size : Int)
    (hin : in_bounds (new_head_of head direction) grid_size)
    (hmem : new_head_of head direction ∉ head :: rest)
    (hfood : new_head_of head direction = food) :
    move_snake (head :: rest) direction food grid_size =
      some (StepResult.moved (new_head_of head direction :: head :: rest) true) := by
  rw [move_snake_cons, if_neg ((not_out_of_bounds_iff _ _).mpr hin), if_neg hmem, if_pos hfood]

/-- Helper: for a recognized direction, the new head is one unit step from
the old head. -/
lemma unit_step_new_head (head : Position) (direction : String)
    (hdir : direction = "UP" ∨ direction = "DOWN" ∨ direction = "LEFT" ∨ direction = "RIGHT") :
    unit_step_from head (new_head_of head direction) direction := by
  rcases hdir with h | h | h | h <;> subst h <;> simp [new_head_of, unit_step_from]

/-- Helper: for a recognized direction, the new head is grid-adjacent to
the old head. -/
lemma unit_adjacent_new_head (head : Position) (direction : String)
    (hdir : direction = "UP" ∨ direction = "DOWN" ∨ direction = "LEFT" ∨ direction = "RIGHT") :
    unit_adjacent (new_head_of head direction) head := by
  rcases hdir with h | h | h | h <;> subst h <;> simp [new_head_of, unit_adjacent]

/-- C1: for a recognized direction and positive grid size, if the new head is
inside the grid, off the pre-move body and distinct from the food, `move_snake`
returns `moved` with `ate = false`, body equal to the new head followed by the
input body minus its last element, unchanged length, and a new head exactly one
unit step from the old head in the given direction. -/
theorem move_snake_normal_move (head : Position) (rest : List Position)
    (direction : String) (food : Position) (grid_size : Int)
    (hdir : direction = "UP" ∨ direction = "DOWN" ∨ direction = "LEFT" ∨ direction = "RIGHT")
    (hpos : 0 < grid_size)
    (hin : in_bounds (new_head_of head direction) grid_size)
    (hmem : new_head_of head direction ∉ head :: rest)
    (hfood : new_head_of head direction ≠ food) :
    move_snake (head :: rest) direction food grid_size =
      some (StepResult.moved (new_head_of head direction :: (head :: rest).dropLast) false) ∧
    (new_head_of head direction :: (head :: rest).dropLast).length = (head :: rest).length ∧
    unit_step_from head (new_head_of head direction) direction := by
  refine ⟨moved_of_free head rest direction food grid_size hin hmem hfood, ?_,
    unit_step_new_head head direction hdir⟩
  simp [List.length_dropLast]

/-- C1 witness: the spec's own example, snake `[(5,5),(5,6),(5,7)]` moving up
with food at `(5,3)` on a 20×20 grid yields `[(5,4),(5,5),(5,6)]`, `ate = false`. -/
theorem move_snake_normal_move_witness :
    move_snake [(5,5),(5,6),(5,7)] "UP" (5,3) 20 =
      some (StepResult.moved [(5,4),(5,5),(5,6)] false) := by
  have h := move_snake_normal_move (5,5) [(5,6),(5,7)] "UP" (5,3) 20 (Or.inl rfl)
    (by decide) (by decide) (by decide) (by decide)
  exact h.1.trans (by decide)

/-- C2: whenever the new head falls outside `[0, grid_size)` in either
coordinate, `move_snake` returns the collision result. -/
theorem move_snake_wall_collision (head : Position) (rest : List Position)
    (direction : String) (food : Position) (grid_size : Int)
    (h : out_of_bounds (new_head_of head direction) grid_size) :
    move_snake (head :: rest) direction food grid_size = some StepResult.collision :=
  collision_of_out head rest direction food grid_size h

/-- C2 witness: snake `[(0,0),(0,1)]` moving up leaves the grid (`y = -1`). -/
theorem move_snake_wall_collision_witness :
    move_snake [(0,0),(0,1)] "UP" (5,5) 20 = some StepResult.collision :=
  move_snake_wall_collision (0,0) [(0,1)] "UP" (5,5) 20 (by decide)

/-- C3: whenever the new head coincides with any cell of the pre-move body
(the current tail included), `move_snake` returns the collision result. -/
theorem move_snake_self_collision (head : Position) (rest : List Position)
    (direction : String) (food : Position) (grid_size : Int)
    (h : new_head_of head direction ∈ head :: rest) :
    move_snake (head :: rest) direction food grid_size = some StepResult.collision :=
  collision_of_mem head rest direction food grid_size h

/-- C3 witness: snake `[(5,5),(5,6)]` moving down lands on its own tail cell. -/
theorem move_snake_self_collision_witness :
    move_snake [(5,5),(5,6)] "DOWN" (9,9) 20 = some StepResult.collision :=
  move_snake_self_collision (5,5) [(5,6)] "DOWN" (9,9) 20 (by decide)

/-- C4: when the new head is inside the grid, off the pre-move body and equal
to the food, `move_snake` returns `moved` with `ate = true`, body equal to the
new head followed by the entire input body, and length grown by one. -/
theorem move_snake_eats_food (head : Position) (rest : List Position)
    (direction : String) (food : Position) (grid_size : Int)
    (hin : in_bounds (new_head_of head direction) grid_size)
    (hmem : new_head_of head direction ∉ head :: rest)
    (hfood : new_head_of head direction = food) :
    move_snake (head :: rest) direction food grid_size =
      some (StepResult.moved (new_head_of head direction :: head :: rest) true) ∧
    (new_head_of head direction :: head :: rest).length = (head :: rest).length + 1 :=
  ⟨moved_of_food head rest direction food grid_size hin hmem hfood, rfl⟩

/-- C4 witness: the spec's own example, snake `[(5,4),(5,5),(5,6)]` moving up
onto food `(5,3)` grows to `[(5,3),(5,4),(5,5),(5,6)]` with `ate = true`. -/
theorem move_snake_eats_food_witness :
    move_snake [(5,4),(5,5),(5,6)] "UP" (5,3) 20 =
      some (StepResult.moved [(5,3),(5,4),(5,5),(5,6)] true) := by
  have h := move_snake_eats_food (5,4) [(5,5),(5,6)] "UP" (5,3) 20
    (by decide) (by decide) (by decide)
  exact h.1.trans (by decide)

/-- C5: on a non-empty body, `move_snake` returns the collision result exactly
when the new head is out of bounds or lies on the pre-move body, and on every
other input it returns a `moved` result; no other outcome exists. -/
theorem move_snake_collision_iff (head : Position) (rest : List Position)
    (direction : String) (food : Position) (grid_size : Int) :
    (move_snake (head :: rest) direction food grid_size = some StepResult.collision ↔
      out_of_bounds (new_head_of head direction) grid_size ∨
        new_head_of head direction ∈ head :: rest) ∧
    (¬ (out_of_bounds (new_head_of head direction) grid_size ∨
        new_head_of head direction ∈ head :: rest) →
      ∃ body ate, move_snake (head :: rest) direction food grid_size =
        some (StepResult.moved body ate)) := by
  constructor
  · constructor
    · intro h
      by_contra hc
      push_neg at hc
      obtain ⟨hb, hm⟩ := hc
      rw [move_snake_cons, if_neg hb, if_neg hm] at h
      split_ifs at h <;> simp at h
    · rintro (hb | hm)
      · exact collision_of_out head rest direction food grid_size hb
      · exact collision_of_mem head rest direction food grid_size hm
  · intro hc
    push_neg at hc
    obtain ⟨hb, hm⟩ := hc
    rw [move_snake_cons, if_neg hb, if_neg hm]
    split_ifs
    · exact ⟨_, _, rfl⟩
    · exact ⟨_, _, rfl⟩

/-- C5 witness: the dichotomy instantiated on the snake `[(5,5),(5,6)]`
moving up on a 20×20 grid. -/
theorem move_snake_collision_iff_witness :
    (move_snake [(5,5),(5,6)] "UP" (1,1) 20 = some StepResult.collision ↔
      out_of_bounds (new_head_of (5,5) "UP") 20 ∨
        new_head_of (5,5) "UP" ∈ ([(5,5),(5,6)] : List Position)) ∧
    (¬ (out_of_bounds (new_head_of (5,5) "UP") 20 ∨
        new_head_of (5,5) "UP" ∈ ([(5,5),(5,6)] : List Position)) →
      ∃ body ate, move_snake [(5,5),(5,6)] "UP" (1,1) 20 =
        some (StepResult.moved body ate)) :=
  move_snake_collision_iff (5,5) [(5,6)] "UP" (1,1) 20

/-- C6: for a recognized direction, a successful step preserves the body
invariant: starting from a duplicate-free, unit-step-adjacent body, any
returned `moved` body is again duplicate-free and unit-step adjacent. -/
theorem move_snake_preserves_invariants (snake : List Position) (direction : String)
    (food : Position) (grid_size : Int) (body : List Position) (ate : Bool)
    (hdir : direction = "UP" ∨ direction = "DOWN" ∨ direction = "LEFT" ∨ direction = "RIGHT")
    (hnodup : snake.Nodup) (hchain : List.Chain' unit_adjacent snake)
    (hres : move_snake snake direction food grid_size = some (StepResult.moved body ate)) :
    body.Nodup ∧ List.Chain' unit_adjacent body := by
  cases snake with
  | nil => exact absurd hres (by simp [move_snake])
  | cons head rest =>
    rw [move_snake_cons] at hres
    by_cases hb : out_of_bounds (new_head_of head direction) grid_size
    · rw [if_pos hb] at hres
      exact absurd hres (by simp)
    · rw [if_neg hb] at hres
      by_cases hm : new_head_of head direction ∈ head :: rest
      · rw [if_pos hm] at hres
        exact absurd hres (by simp)
      · rw [if_neg hm] at hres
        have hcand_nodup : (new_head_of head direction :: head :: rest).Nodup :=
          List.nodup_cons.mpr ⟨hm, hnodup⟩
        have hcand_chain :
            List.Chain' unit_adjacent (new_head_of head direction :: head :: rest) :=
          List.chain'_cons.mpr ⟨unit_adjacent_new_head head direction hdir, hchain⟩
        by_cases hf : new_head_of head direction = food
        · rw [if_pos hf] at hres
          simp only [Option.some.injEq, StepResult.moved.injEq] at hres
          obtain ⟨rfl, rfl⟩ := hres
          exact ⟨hcand_nodup, hcand_chain⟩
        · rw [if_neg hf] at hres
          simp only [Option.some.injEq, StepResult.moved.injEq] at hres
          obtain ⟨rfl, rfl⟩ := hres
          exact ⟨hcand_nodup.sublist (List.dropLast_sublist _), hcand_chain.init⟩

/-- C6 witness: the invariant conclusion for the snake `[(5,5),(5,6),(5,7)]`
moving up, whose step returns body `[(5,4),(5,5),(5,6)]`. -/
theorem move_snake_preserves_invariants_witness :
    ([(5,4),(5,5),(5,6)] : List Position).Nodup ∧
      List.Chain' unit_adjacent [(5,4),(5,5),(5,6)] :=
  move_snake_preserves_invariants [(5,5),(5,6),(5,7)] "UP" (9,9) 20
    [(5,4),(5,5),(5,6)] false (Or.inl rfl) (by decide)
    (by simp [List.chain'_cons, unit_adjacent]) (by decide)

/-- C7: `move_snake` is a pure function of its four arguments: two calls on
identical inputs produce identical results. -/
theorem move_snake_deterministic (snake : List Position) (direction : String)
    (food : Position) (grid_size : Int) :
    move_snake snake direction food grid_size = move_snake snake direction food grid_size :=
  rfl

/-- C8: on every non-empty body the embedded function returns a value
(`isSome`): no branch reaches the error outcome reserved for the empty body,
whose head access `snake_list[0]` would raise. -/
theorem move_snake_total_of_nonempty (snake : List Position) (direction : String)
    (food : Position) (grid_size : Int) (h : snake ≠ []) :
    (move_snake snake direction food grid_size).isSome = true := by
  cases snake with
  | nil => exact absurd rfl h
  | cons head rest =>
    rw [move_snake_cons]
    split_ifs <;> rfl

/-- C8 witness: the singleton snake `[(5,5)]` moving up yields a value. -/
theorem move_snake_total_of_nonempty_witness :
    (move_snake [(5,5)] "UP" (1,1) 20).isSome = true :=
  move_snake_total_of_nonempty [(5,5)] "UP" (1,1) 20 (by decide)

/-- C9: an unrecognized direction string leaves the head unchanged, so the new
head lies on the pre-move body and `move_snake` returns the collision result
rather than moving or failing. -/
theorem move_snake_unknown_direction_collides (head : Position) (rest : List Position)
    (direction : String) (food : Position) (grid_size : Int)
    (hdir : direction ≠ "UP" ∧ direction ≠ "DOWN" ∧ direction ≠ "LEFT" ∧ direction ≠ "RIGHT") :
    new_head_of head direction = head ∧
    new_head_of head direction ∈ head :: rest ∧
    move_snake (head :: rest) direction food grid_size = some StepResult.collision := by
  have hnh : new_head_of head direction = head := by
    unfold new_head_of
    rw [if_neg hdir.1, if_neg hdir.2.1, if_neg hdir.2.2.1, if_neg hdir.2.2.2]
  refine ⟨hnh, ?_, ?_⟩
  · rw [hnh]
    exact List.mem_cons_self head rest
  · refine collision_of_mem head rest direction food grid_size ?_
    rw [hnh]
    exact List.mem_cons_self head rest

/-- C9 witness: the direction string `"NOPE"` on snake `[(5,5),(5,6)]`. -/
theorem move_snake_unknown_direction_collides_witness :
    new_head_of (5,5) "NOPE" = (5,5) ∧
    new_head_of (5,5) "NOPE" ∈ ([(5,5),(5,6)] : List Position) ∧
    move_snake [(5,5),(5,6)] "NOPE" (1,1) 20 = some StepResult.collision :=
  move_snake_unknown_direction_collides (5,5) [(5,6)] "NOPE" (1,1) 20
    ⟨by decide, by decide, by decide, by decide⟩

/-- C10: with a non-positive grid size every step collides, because no integer
coordinate can satisfy `0 ≤ x < grid_size`. -/
theorem move_snake_nonpositive_grid_collides (head : Position) (rest : List Position)
    (direction : String) (food : Position) (grid_size : Int) (hg : grid_size ≤ 0) :
    move_snake (head :: rest) direction food grid_size = some StepResult.collision :=
  collision_of_out head rest direction food grid_size (by unfold out_of_bounds; omega)

/-- C10 witness: grid size `0` forces a collision for snake `[(5,5)]`. -/
theorem move_snake_nonpositive_grid_collides_witness :
    move_snake [(5,5)] "UP" (1,1) 0 = some StepResult.collision :=
  move_snake_nonpositive_grid_collides (5,5) [] "UP" (1,1) 0 (by decide)
